import Mathlib

/-!
Verification of the memory-game backend core: the score calculator and
content generator (`utils/gameData.js`), the consecutive-match streak helper
and the start/match/complete HTTP handlers (`routes/game.js`), and the
cache/persistence ordering they implement.

Conventions of the shallow embedding:
* JavaScript numbers that only ever hold non-negative integers are `Nat`;
  the wrong-move count, which the complete handler produces by subtraction,
  is `Int` so that the embedding agrees with JS arithmetic on all inputs.
* `Math.floor (x * 1.5)` on a natural `x` is embedded as `3 * x / 2`
  (exact: `x * 1.5 = 3x/2` and floor of that is Nat division).
* The guard `timeElapsed < timeLimit * 0.5` is embedded as
  `2 * timeElapsed < timeLimit`, which is equivalent in exact arithmetic.
* `Math.random()`-driven choices are threaded as an explicit source
  `r : Nat → Nat`; the value `Math.floor (Math.random() * (i + 1))`,
  uniformly distributed over `0..i`, is represented as `r i % (i + 1)`,
  which ranges over exactly the same set.
* External effects (database writes, Redis writes) are modelled by boolean
  success flags; a failing `await` outside a `try/catch` short-circuits the
  handler to its catch-all 500 response, exactly as in the JS control flow.
-/

namespace MemoryGame

/-- One difficulty entry of `gameConfig.difficulties` (gameData.js). -/
structure TierConfig where
  cardCount : Nat
  timeLimit : Nat
  pointsPerMatch : Nat
  bonusTimeThreshold : Nat
  bonusPoints : Nat
  gridSize : String
deriving Repr, DecidableEq

/-- The four recognized difficulty names. -/
inductive Difficulty
  | easy | medium | hard | expert
deriving Repr, DecidableEq

/-- `gameConfig.difficulties` (gameData.js lines 100-133). -/
def difficulties : Difficulty → TierConfig
  | .easy   => ⟨16, 300000, 10, 10000, 5, "4x4"⟩
  | .medium => ⟨20, 480000, 15, 8000, 8, "5x4"⟩
  | .hard   => ⟨24, 600000, 20, 6000, 12, "6x4"⟩
  | .expert => ⟨30, 900000, 25, 5000, 15, "6x5"⟩

/-- `gameConfig.scoring.perfectGameBonus`. -/
def scoringPerfectGameBonus : Nat := 50

/-- `gameConfig.scoring.streakBonus` (points per consecutive match). -/
def scoringStreakBonus : Nat := 3

/-- `gameConfig.scoring.maxStreakBonus`. -/
def scoringMaxStreakBonus : Nat := 30

/-- The `gameStats` argument of `GameDataGenerator.calculateScore`.
`wrongMoves` is `Int` because the complete handler computes it as
`moves - matches.length`. -/
structure GameStats where
  matchCount : Nat   -- JS field name: matches (a Lean keyword)
  wrongMoves : Int
  timeElapsed : Nat
  difficulty : Difficulty
  consecutiveMatches : Nat
deriving Repr, DecidableEq

/-- The `breakdown` record built by `calculateScore`. -/
structure ScoreBreakdown where
  baseScore : Nat
  bonusPoints : Nat
  speedBonus : Nat
  perfectGameBonus : Nat
  streakBonus : Nat
  penalties : Int
deriving Repr, DecidableEq

/-- The result of `calculateScore` (the `rating` field is a pure projection
of `totalScore` and difficulty, irrelevant to the claims here). -/
structure ScoreResult where
  totalScore : Int
  breakdown : ScoreBreakdown
deriving Repr, DecidableEq

/-- `GameDataGenerator.calculateScore` (gameData.js lines 259-321).
The running total starts at the base score, conditionally adds the speed,
perfect-game and streak bonuses, subtracts the wrong-move penalty and is
clamped at zero.  `Math.floor (baseScore * 1.5)` is `3 * baseScore / 2`;
`timeElapsed < timeLimit * 0.5` is `2 * timeElapsed < timeLimit`. -/
def calculateScore (gs : GameStats) : ScoreResult :=
  let config := difficulties gs.difficulty
  let baseScore : Nat := gs.matchCount * config.pointsPerMatch
  let speedBonus : Nat :=
    if 2 * gs.timeElapsed < config.timeLimit then 3 * baseScore / 2 else 0
  let perfectGameBonus : Nat :=
    if gs.wrongMoves = 0 then scoringPerfectGameBonus else 0
  let streakBonus : Nat :=
    if 3 ≤ gs.consecutiveMatches then
      min (gs.consecutiveMatches * scoringStreakBonus) scoringMaxStreakBonus
    else 0
  let penalties : Int := max 0 (gs.wrongMoves - 2) * 2
  let totalScore : Int :=
    max 0 ((baseScore : Int) + speedBonus + perfectGameBonus + streakBonus
            - penalties)
  { totalScore := totalScore,
    breakdown :=
      { baseScore := baseScore, bonusPoints := 0, speedBonus := speedBonus,
        perfectGameBonus := perfectGameBonus, streakBonus := streakBonus,
        penalties := penalties } }

/-- C1: for all inputs, `calculateScore` returns
`max 0 (base + speedBonus + perfectGameBonus + streakBonus - penalty)` with
the perfect-game bonus (50) included iff `wrongMoves = 0`, the streak bonus
`min (streak * 3) 30` included iff `streak ≥ 3`, and the penalty
`max 0 (wrongMoves - 2) * 2`; consequently the total is never negative. -/
theorem calculateScore_spec (gs : GameStats) :
    (calculateScore gs).totalScore =
      max 0 (((gs.matchCount * (difficulties gs.difficulty).pointsPerMatch : Nat) : Int)
        + ((calculateScore gs).breakdown.speedBonus : Int)
        + (if gs.wrongMoves = 0 then (50 : Int) else 0)
        + (if 3 ≤ gs.consecutiveMatches
            then ((min (gs.consecutiveMatches * 3) 30 : Nat) : Int) else 0)
        - max 0 (gs.wrongMoves - 2) * 2)
    ∧ 0 ≤ (calculateScore gs).totalScore
    ∧ (calculateScore gs).breakdown.perfectGameBonus
        = (if gs.wrongMoves = 0 then 50 else 0)
    ∧ (calculateScore gs).breakdown.streakBonus
        = (if 3 ≤ gs.consecutiveMatches
            then min (gs.consecutiveMatches * 3) 30 else 0) := by
  refine ⟨?_, ?_, ?_, ?_⟩
  · simp only [calculateScore, scoringPerfectGameBonus, scoringStreakBonus,
      scoringMaxStreakBonus]
    split_ifs <;> simp
  · exact le_max_left _ _
  · rfl
  · rfl

/-- C5 counterexample: on the medium tier with one match and elapsed time 0
the speed bonus is included (`0 < timeLimit * 0.5`) but the amount added is
`Math.floor (15 * 1.5) = 22`, not exactly `base * 1.5 = 22.5`: twice the
bonus is 44, not `3 * base = 45`. -/
theorem speedBonus_not_exact_multiplier :
    (calculateScore ⟨1, 1, 0, .medium, 0⟩).breakdown.speedBonus ≠ 0
    ∧ 2 * (calculateScore ⟨1, 1, 0, .medium, 0⟩).breakdown.speedBonus
        ≠ 3 * (calculateScore ⟨1, 1, 0, .medium, 0⟩).breakdown.baseScore := by
  decide

/-- C5 amended: the speed bonus is included exactly when
`elapsedMs < tier.timeLimit * 0.5` (encoded exactly as
`2 * elapsedMs < timeLimit`), and when included it adds
`Math.floor (base * 1.5) = 3 * base / 2` rounded down, where
`base = matchCount * tier.pointsPerMatch`. -/
theorem calculateScore_speedBonus (gs : GameStats) :
    (calculateScore gs).breakdown.speedBonus =
      (if 2 * gs.timeElapsed < (difficulties gs.difficulty).timeLimit
        then 3 * (gs.matchCount * (difficulties gs.difficulty).pointsPerMatch) / 2
        else 0)
    ∧ (calculateScore gs).breakdown.baseScore
        = gs.matchCount * (difficulties gs.difficulty).pointsPerMatch := by
  exact ⟨rfl, rfl⟩

/-- The destructuring swap `[a[i], a[j]] = [a[j], a[i]]` inside
`shuffleArray`; total on lists (in the Fisher–Yates loop both indices are
always in bounds). -/
def listSwap {α : Type} (l : List α) (i j : Nat) : List α :=
  if h : i < l.length ∧ j < l.length then
    (l.set i (l.get ⟨j, h.2⟩)).set j (l.get ⟨i, h.1⟩)
  else l

/-- The `for (let i = length - 1; i > 0; i--)` loop of `shuffleArray`:
the fuel argument is the current index `i`, and
`Math.floor (Math.random() * (i + 1))` is the sampled `r i % (i + 1)`. -/
def fisherYates {α : Type} (r : Nat → Nat) : Nat → List α → List α
  | 0, l => l
  | i + 1, l => fisherYates r i (listSwap l (i + 1) (r (i + 1) % (i + 2)))

/-- `GameDataGenerator.shuffleArray` (gameData.js lines 358-365), with the
random source made explicit. -/
def shuffleArray {α : Type} (r : Nat → Nat) (l : List α) : List α :=
  fisherYates r (l.length - 1) l

lemma count_listSwap {α : Type} [DecidableEq α] (l : List α) (i j : Nat)
    (x : α) : (listSwap l i j).count x = l.count x := by
  unfold listSwap
  split
  case isFalse => rfl
  case isTrue h =>
    obtain ⟨hi, hj⟩ := h
    simp only [List.get_eq_getElem]
    have hj' : j < (l.set i l[j]).length := by simpa using hj
    have e1 := List.count_set l[i] x (l.set i l[j]) j hj'
    have e2 := List.count_set l[j] x l i hi
    have hset : (l.set i l[j])[j] = l[j] := by
      rw [List.getElem_set]
      split <;> rfl
    simp only [beq_iff_eq, hset] at e1 e2
    have m1 : (if l[j] = x then 1 else 0) ≤ l.count x := by
      split
      case isTrue hx =>
        subst hx
        exact List.count_pos_iff.mpr (List.getElem_mem hj)
      case isFalse => exact Nat.zero_le _
    have m3 : (if l[i] = x then 1 else 0) ≤ l.count x := by
      split
      case isTrue hx =>
        subst hx
        exact List.count_pos_iff.mpr (List.getElem_mem hi)
      case isFalse => exact Nat.zero_le _
    rw [e1, e2]
    by_cases hjx : l[j] = x <;> by_cases hix : l[i] = x <;>
      simp only [if_pos, if_neg, hjx, hix, if_true, if_false,
        not_false_iff] at m1 m3 ⊢ <;>
      omega

lemma count_fisherYates {α : Type} [DecidableEq α] (r : Nat → Nat) (n : Nat)
    (l : List α) (x : α) : (fisherYates r n l).count x = l.count x := by
  induction n generalizing l with
  | zero => rfl
  | succ i ih =>
    rw [fisherYates, ih, count_listSwap]

/-- The shuffled array is a permutation of its input. -/
lemma shuffleArray_perm {α : Type} [DecidableEq α] (r : Nat → Nat)
    (l : List α) : (shuffleArray r l).Perm l :=
  List.perm_iff_count.mpr fun x => count_fisherYates r _ l x

/-- One entry of `emojiPairs` (gameData.js lines 8-49). -/
structure EmojiTemplate where
  id : String
  emoji : String
  name : String
  category : String
deriving Repr, DecidableEq

/-- The 30 pair templates of `emojiPairs`. -/
def emojiPairs : List EmojiTemplate :=
  [⟨"laughing", "😂", "Crying Laugh", "classic"⟩,
   ⟨"wink", "😉", "Winking Face", "classic"⟩,
   ⟨"cool", "😎", "Cool Dude", "classic"⟩,
   ⟨"heart_eyes", "😍", "Heart Eyes", "love"⟩,
   ⟨"thinking", "🤔", "Thinking Face", "thoughtful"⟩,
   ⟨"upside_down", "🙃", "Upside Down", "silly"⟩,
   ⟨"rolling_eyes", "🙄", "Eye Roll", "sassy"⟩,
   ⟨"zany", "🤪", "Zany Face", "silly"⟩,
   ⟨"robot", "🤖", "Robot Face", "tech"⟩,
   ⟨"ghost", "👻", "Friendly Ghost", "spooky"⟩,
   ⟨"alien", "👽", "Alien Friend", "space"⟩,
   ⟨"unicorn", "🦄", "Magical Unicorn", "fantasy"⟩,
   ⟨"pizza", "🍕", "Pizza Slice", "food"⟩,
   ⟨"taco", "🌮", "Taco Tuesday", "food"⟩,
   ⟨"donut", "🍩", "Donut Delight", "food"⟩,
   ⟨"rainbow", "🌈", "Rainbow Magic", "nature"⟩,
   ⟨"rocket", "🚀", "Blast Off", "space"⟩,
   ⟨"guitar", "🎸", "Rock Star", "music"⟩,
   ⟨"sunglasses", "🕶️", "Shades", "cool"⟩,
   ⟨"party", "🎉", "Party Time", "celebration"⟩,
   ⟨"detective", "🕵️", "Detective", "mystery"⟩,
   ⟨"ninja", "🥷", "Stealth Ninja", "action"⟩,
   ⟨"pirate", "🏴‍☠️", "Pirate Flag", "adventure"⟩,
   ⟨"fire", "🔥", "On Fire", "hot"⟩,
   ⟨"lightning", "⚡", "Lightning Bolt", "energy"⟩,
   ⟨"star", "⭐", "Superstar", "space"⟩,
   ⟨"diamond", "💎", "Precious Diamond", "luxury"⟩,
   ⟨"crown", "👑", "Royal Crown", "luxury"⟩,
   ⟨"trophy", "🏆", "Victory Trophy", "achievement"⟩,
   ⟨"magic_wand", "🪄", "Magic Wand", "fantasy"⟩]

/-- A deck card as built by `generateCardSet`; `position` is JS `null`
until the final shuffle assigns sequential indices. -/
structure Card where
  id : String
  pairId : String
  emoji : String
  name : String
  category : String
  isFlipped : Bool
  isMatched : Bool
  position : Option Nat
deriving Repr, DecidableEq

/-- The two cards pushed for one selected template
(gameData.js lines 190-213). -/
def makePair (e : EmojiTemplate) : List Card :=
  [{ id := e.id ++ "_1", pairId := e.id, emoji := e.emoji, name := e.name,
     category := e.category, isFlipped := false, isMatched := false,
     position := none },
   { id := e.id ++ "_2", pairId := e.id, emoji := e.emoji, name := e.name,
     category := e.category, isFlipped := false, isMatched := false,
     position := none }]

/-- The `availableEmojis` local of `generateCardSet` after the category
filter (gameData.js lines 169-175): filter by the requested categories when
they are given and non-empty, else the full pool. -/
def filteredEmojis (categories : Option (List String)) : List EmojiTemplate :=
  match categories with
  | some cats =>
      if 0 < cats.length then
        emojiPairs.filter fun e => cats.contains e.category
      else emojiPairs
  | none => emojiPairs

/-- The `availableEmojis` local after the too-few-templates fallback
(gameData.js lines 177-180). -/
def availableEmojis (difficulty : Difficulty)
    (categories : Option (List String)) : List EmojiTemplate :=
  if (filteredEmojis categories).length < (difficulties difficulty).cardCount / 2
  then emojiPairs
  else filteredEmojis categories

/-- The `selectedEmojis` local (gameData.js lines 183-186): the first
`cardCount / 2` templates of a shuffle of the available pool. -/
def selectedEmojis (difficulty : Difficulty)
    (categories : Option (List String)) (r1 : Nat → Nat) :
    List EmojiTemplate :=
  (shuffleArray r1 (availableEmojis difficulty categories)).take
    ((difficulties difficulty).cardCount / 2)

/-- `GameDataGenerator.generateCardSet` (gameData.js lines 161-222):
duplicate each selected template into a pair of cards, shuffle the cards,
and assign each its index as `position`.  `r1`, `r2` are the two shuffles'
random sources. -/
def generateCardSet (difficulty : Difficulty)
    (categories : Option (List String)) (r1 r2 : Nat → Nat) : List Card :=
  (shuffleArray r2
      ((selectedEmojis difficulty categories r1).flatMap makePair)).mapIdx
    fun idx c => { c with position := some idx }

lemma emojiPairs_ids_nodup : (emojiPairs.map (·.id)).Nodup := by decide

lemma filteredEmojis_sublist (categories : Option (List String)) :
    (filteredEmojis categories).Sublist emojiPairs := by
  cases categories with
  | none => exact List.Sublist.refl _
  | some cats =>
    simp only [filteredEmojis]
    split
    · exact List.filter_sublist _
    · exact List.Sublist.refl _

lemma availableEmojis_sublist (d : Difficulty)
    (categories : Option (List String)) :
    (availableEmojis d categories).Sublist emojiPairs := by
  unfold availableEmojis
  split
  · exact List.Sublist.refl _
  · exact filteredEmojis_sublist categories

lemma le_availableEmojis_length (d : Difficulty)
    (categories : Option (List String)) :
    (difficulties d).cardCount / 2 ≤ (availableEmojis d categories).length := by
  unfold availableEmojis
  split
  case isTrue => cases d <;> decide
  case isFalse h => omega

lemma selectedEmojis_length (d : Difficulty)
    (categories : Option (List String)) (r1 : Nat → Nat) :
    (selectedEmojis d categories r1).length
      = (difficulties d).cardCount / 2 := by
  unfold selectedEmojis
  rw [List.length_take,
    (shuffleArray_perm r1 (availableEmojis d categories)).length_eq]
  exact min_eq_left (le_availableEmojis_length d categories)

lemma selectedEmojis_ids_nodup (d : Difficulty)
    (categories : Option (List String)) (r1 : Nat → Nat) :
    ((selectedEmojis d categories r1).map (·.id)).Nodup := by
  have hshuf : ((shuffleArray r1 (availableEmojis d categories)).map
      (·.id)).Nodup := by
    refine (((shuffleArray_perm r1 _).map _).nodup_iff).mpr ?_
    exact ((availableEmojis_sublist d categories).map _).nodup
      emojiPairs_ids_nodup
  exact ((List.take_sublist _ _).map _).nodup hshuf

lemma length_flatMap_makePair (ts : List EmojiTemplate) :
    (ts.flatMap makePair).length = 2 * ts.length := by
  induction ts with
  | nil => rfl
  | cons e ts ih =>
    simp only [List.flatMap_cons, List.length_append, ih, makePair,
      List.length_cons, List.length_nil]
    omega

lemma map_pairId_flatMap (ts : List EmojiTemplate) :
    ((ts.flatMap makePair).map (·.pairId))
      = ts.flatMap fun e => [e.id, e.id] := by
  induction ts with
  | nil => rfl
  | cons e ts ih =>
    simp only [List.flatMap_cons, List.map_append, ih, makePair]
    rfl

lemma count_flatMap_dup (ts : List EmojiTemplate) (pid : String) :
    ((ts.flatMap fun e => [e.id, e.id]).count pid)
      = 2 * ((ts.map (·.id)).count pid) := by
  induction ts with
  | nil => rfl
  | cons e ts ih =>
    simp only [List.flatMap_cons, List.count_append, ih, List.map_cons,
      List.count_cons, List.count_nil, beq_iff_eq]
    split <;> omega

lemma flags_flatMap_makePair (ts : List EmojiTemplate) (c : Card)
    (hc : c ∈ ts.flatMap makePair) :
    c.isFlipped = false ∧ c.isMatched = false := by
  rw [List.mem_flatMap] at hc
  obtain ⟨e, _, hce⟩ := hc
  simp only [makePair, List.mem_cons, List.mem_singleton,
    List.not_mem_nil, or_false] at hce
  rcases hce with h | h <;> subst h <;> exact ⟨rfl, rfl⟩

/-- Applying a function that is insensitive to `position` commutes with the
position-assigning `mapIdx` of `generateCardSet`. -/
lemma map_mapIdx_setPosition {β : Type} (g : Card → β) (l : List Card)
    (hg : ∀ i c, g { c with position := some i } = g c) :
    ((l.mapIdx fun idx c => { c with position := some idx }).map g)
      = l.map g := by
  rw [List.mapIdx_eq_enum_map, List.map_map]
  have h1 : (g ∘ Function.uncurry fun idx c => { c with position := some idx })
      = ((fun p : Nat × Card => g p.2)) := by
    funext p
    exact hg p.1 p.2
  rw [h1]
  have h2 : ((fun p : Nat × Card => g p.2))
      = (g ∘ (Prod.snd : Nat × Card → Card)) := rfl
  rw [h2, ← List.map_map, List.enum_map_snd]

lemma positions_mapIdx (l : List Card) :
    ((l.mapIdx fun idx c => { c with position := some idx }).map (·.position))
      = (List.range l.length).map some := by
  rw [List.mapIdx_eq_enum_map, List.map_map]
  have h1 : ((fun c : Card => c.position)
        ∘ Function.uncurry fun idx c => { c with position := some idx })
      = ((some ∘ Prod.fst : Nat × Card → Option Nat)) := rfl
  rw [h1, ← List.map_map, List.enum_map_fst]

lemma generateCardSet_length_aux (d : Difficulty)
    (categories : Option (List String)) (r1 r2 : Nat → Nat) :
    (shuffleArray r2
        ((selectedEmojis d categories r1).flatMap makePair)).length
      = (difficulties d).cardCount := by
  rw [(shuffleArray_perm r2 _).length_eq, length_flatMap_makePair,
    selectedEmojis_length]
  cases d <;> rfl

/-- C4: for every recognized tier and any category filter, the generated
deck has exactly `cardCount` cards, every pair identifier that occurs in
it occurs exactly twice, no card starts flipped or matched, and the
positions are exactly `0 .. cardCount - 1` in order. -/
theorem generateCardSet_spec (d : Difficulty)
    (categories : Option (List String)) (r1 r2 : Nat → Nat) :
    (generateCardSet d categories r1 r2).length = (difficulties d).cardCount
    ∧ (∀ pid ∈ (generateCardSet d categories r1 r2).map (·.pairId),
        ((generateCardSet d categories r1 r2).map (·.pairId)).count pid = 2)
    ∧ (∀ c ∈ generateCardSet d categories r1 r2,
        c.isFlipped = false ∧ c.isMatched = false)
    ∧ (generateCardSet d categories r1 r2).map (·.position)
        = (List.range ((difficulties d).cardCount)).map some := by
  have hmapPid : ((generateCardSet d categories r1 r2).map (·.pairId))
      = ((shuffleArray r2
          ((selectedEmojis d categories r1).flatMap makePair)).map
            (·.pairId)) :=
    map_mapIdx_setPosition _ _ fun _ _ => rfl
  have hperm : ((shuffleArray r2
        ((selectedEmojis d categories r1).flatMap makePair)).map
          (·.pairId)).Perm
      (((selectedEmojis d categories r1).flatMap makePair).map (·.pairId)) :=
    (shuffleArray_perm r2 _).map _
  refine ⟨?_, ?_, ?_, ?_⟩
  · unfold generateCardSet
    rw [List.length_mapIdx]
    exact generateCardSet_length_aux d categories r1 r2
  · intro pid hpid
    rw [hmapPid] at hpid ⊢
    rw [List.perm_iff_count.mp hperm pid, map_pairId_flatMap,
      count_flatMap_dup]
    have hmem : pid ∈ ((selectedEmojis d categories r1).map (·.id)) := by
      have h1 := hperm.mem_iff.mp hpid
      rw [map_pairId_flatMap] at h1
      have h2 : 0 < ((selectedEmojis d categories r1).flatMap
          fun e => [e.id, e.id]).count pid := List.count_pos_iff.mpr h1
      rw [count_flatMap_dup] at h2
      exact List.count_pos_iff.mp (by omega)
    rw [List.count_eq_one_of_mem (selectedEmojis_ids_nodup d categories r1)
      hmem]
  · intro c hc
    have hmap : ((generateCardSet d categories r1 r2).map
        fun c : Card => (c.isFlipped, c.isMatched))
        = ((shuffleArray r2
            ((selectedEmojis d categories r1).flatMap makePair)).map
              fun c : Card => (c.isFlipped, c.isMatched)) :=
      map_mapIdx_setPosition _ _ fun _ _ => rfl
    have h1 : (c.isFlipped, c.isMatched)
        ∈ ((generateCardSet d categories r1 r2).map
            fun c : Card => (c.isFlipped, c.isMatched)) :=
      List.mem_map_of_mem _ hc
    rw [hmap] at h1
    have h2 := (((shuffleArray_perm r2 _).map
      fun c : Card => (c.isFlipped, c.isMatched)).mem_iff).mp h1
    rw [List.mem_map] at h2
    obtain ⟨c', hc', hcc⟩ := h2
    have := flags_flatMap_makePair _ _ hc'
    refine ⟨?_, ?_⟩
    · have := congrArg Prod.fst hcc
      simp only at this
      rw [← this]
      exact (flags_flatMap_makePair _ _ hc').1
    · have := congrArg Prod.snd hcc
      simp only at this
      rw [← this]
      exact (flags_flatMap_makePair _ _ hc').2
  · unfold generateCardSet
    rw [positions_mapIdx, generateCardSet_length_aux]

set_option maxRecDepth 100000 in
/-- Witness for C4 at the easy tier with no category filter and the
identity random source (under which every Fisher–Yates swap is the
identity): the pair identifier of the first template occurs and occurs
exactly twice. -/
theorem generateCardSet_spec_witness :
    "laughing" ∈ (generateCardSet .easy none id id).map (·.pairId)
    ∧ ((generateCardSet .easy none id id).map (·.pairId)).count
        "laughing" = 2 :=
  ⟨by decide, (generateCardSet_spec .easy none id id).2.1 "laughing"
    (by decide)⟩

/-- One element of the cached session's `matches` array
(game.js lines 198-205). -/
structure MatchEvent where
  card1Id : String
  card2Id : String
  matchTime : Nat
  pointsEarned : Nat
  bonusPoints : Nat
  timestamp : Nat
deriving Repr, DecidableEq

/-- The cached game session (game.js lines 55-66).  `matchList` is the JS
`matches` array (a Lean keyword); `finalScore` and `completedAt` are the
fields added at completion, absent (`none`) until then. -/
structure GameSession where
  gameId : String
  userId : Nat
  username : String
  difficulty : Difficulty
  cards : List Card
  startTime : Nat
  matchList : List MatchEvent
  score : Nat
  moves : Nat
  isCompleted : Bool
  finalScore : Option Int
  completedAt : Option Nat
deriving Repr, DecidableEq

/-- The scan inside `calculateConsecutiveMatches` (game.js lines 539-553):
`prev` is the previous sorted timestamp, `cur` the current streak, `best`
the maximum so far; the gap test is `timeDiff <= 30000`. -/
def streakAux : Nat → Nat → Nat → List Nat → Nat
  | _, _, best, [] => best
  | prev, cur, best, t :: rest =>
    if t - prev ≤ 30000 then streakAux t (cur + 1) (max best (cur + 1)) rest
    else streakAux t 1 best rest

/-- The timestamp-sorted view of the match list.  The JS sorts the match
objects with comparator `a.timestamp - b.timestamp` and then reads only
timestamps, so the embedding sorts the timestamp list itself (the sorted
timestamp list is determined by the multiset of timestamps, hence by any
correct sort). -/
def sortedTimestamps (matchList : List MatchEvent) : List Nat :=
  (matchList.map (·.timestamp)).mergeSort fun a b => a ≤ b

/-- `calculateConsecutiveMatches` (game.js lines 533-556): 0 for an empty
match list, else the scan over the sorted timestamps starting with
`maxStreak = currentStreak = 1`. -/
def calculateConsecutiveMatches (matchList : List MatchEvent) : Nat :=
  match sortedTimestamps matchList with
  | [] => 0
  | t :: rest => streakAux t 1 1 rest

/-- Rejection and failure outcomes of the match endpoint. -/
inductive MatchError
  | notFound          -- 404: no cached session for the game id
  | alreadyCompleted  -- 400: the completion flag is set
  | invalidCard       -- 400: a submitted card id is not in the deck
  | alreadyMatched    -- 400: a submitted card is already matched
  | serverError       -- 500: an unguarded await failed
deriving Repr, DecidableEq

/-- The response fields of a successful match request that the claims
refer to (game.js lines 242-267). -/
structure MatchResponse where
  isMatch : Bool
  pointsEarned : Nat
  score : Nat
  moves : Nat
  matchesFound : Nat
deriving Repr, DecidableEq

/-- One row inserted by `database.recordMatch` (game.js lines 188-195). -/
structure MatchRecord where
  gameId : String
  card1Id : String
  card2Id : String
  matchTime : Nat
  points : Nat
  bonusPoints : Nat
deriving Repr, DecidableEq

/-- Success flags for the external calls of the match endpoint.  The cache
update, activity tracking and metrics calls are each wrapped in their own
`try/catch` (game.js lines 213-235); `database.recordMatch` (line 188)
is not. -/
structure MatchEffects where
  dbRecordOk : Bool
  sessionCacheOk : Bool
  activityOk : Bool
  metricsOk : Bool
deriving Repr, DecidableEq

/-- The `POST /api/game/match` handler (game.js lines 122-290) applied to
the cached session looked up for the submitted game id (`none` is the 404
path).  Returns the HTTP outcome, the cached session after the request,
and the row given to `database.recordMatch`, if any.  `now` is
`Date.now()` at the match-event push.  The JS guard
`matchTime && matchTime < config.bonusTimeThreshold` treats a 0 matchTime
as falsy.  When `database.recordMatch` fails the handler answers 500 from
the outer catch before the cache write, so the cached session keeps its
pre-request value; when only the guarded cache update fails the handler
still answers normally but the cached session also keeps its pre-request
value. -/
def matchHandler (sess : Option GameSession) (card1Id card2Id : String)
    (matchTime : Option Nat) (now : Nat) (eff : MatchEffects) :
    Except MatchError MatchResponse × Option GameSession
      × Option MatchRecord :=
  match sess with
  | none => (.error .notFound, none, none)
  | some s =>
    if s.isCompleted then (.error .alreadyCompleted, some s, none)
    else
      match s.cards.find? (fun c => c.id == card1Id),
            s.cards.find? (fun c => c.id == card2Id) with
      | some card1, some card2 =>
        if card1.isMatched || card2.isMatched then
          (.error .alreadyMatched, some s, none)
        else
          let isMatch := card1.pairId == card2.pairId
          let config := difficulties s.difficulty
          let pointsEarned := if isMatch then config.pointsPerMatch else 0
          let speedOk : Bool := match matchTime with
            | some mt => mt != 0 && decide (mt < config.bonusTimeThreshold)
            | none => false
          let bonusPoints := if isMatch && speedOk then config.bonusPoints
            else 0
          let cards' := if isMatch then
              s.cards.map fun c =>
                if c.id == card1Id || c.id == card2Id then
                  { c with isMatched := true }
                else c
            else s.cards
          let matchList' := if isMatch then
              s.matchList ++ [⟨card1Id, card2Id, matchTime.getD 0,
                pointsEarned, bonusPoints, now⟩]
            else s.matchList
          let score' := if isMatch then s.score + pointsEarned + bonusPoints
            else s.score
          let s' : GameSession :=
            { s with
              cards := cards', matchList := matchList',
              score := score', moves := s.moves + 1 }
          if isMatch && !eff.dbRecordOk then
            (.error .serverError, some s, none)
          else
            (.ok { isMatch := isMatch,
                   pointsEarned := pointsEarned + bonusPoints,
                   score := s'.score, moves := s'.moves,
                   matchesFound := s'.matchList.length },
             some (if eff.sessionCacheOk then s' else s),
             if isMatch then
               some ⟨s.gameId, card1Id, card2Id, matchTime.getD 0,
                 pointsEarned, bonusPoints⟩
             else none)
      | _, _ => (.error .invalidCard, some s, none)

/-- Rejection and failure outcomes of the complete endpoint. -/
inductive CompleteError
  | notFound | alreadyCompleted | serverError
deriving Repr, DecidableEq

/-- Success flags for the external calls of the complete endpoint.  Only
the Prometheus metrics block (game.js lines 362-377) is guarded by its own
`try/catch`; `database.completeGame`, `cacheGameSession`, the two cache
deletes and `trackUserActivity` (lines 336-359) are all awaited directly
inside the outer try. -/
structure CompleteEffects where
  dbCompleteOk : Bool
  sessionCacheOk : Bool
  delUserStatsOk : Bool
  delLeaderboardOk : Bool
  activityOk : Bool
  metricsOk : Bool
deriving Repr, DecidableEq

/-- The row update performed by `database.completeGame`
(game.js lines 336-342, part_005 lines 212-240). -/
structure DbCompletion where
  gameId : String
  score : Int
  moves : Nat
  timeElapsed : Nat
  cardsMatched : Nat
deriving Repr, DecidableEq

/-- The `gameStats` object built by the complete handler
(game.js lines 324-330). -/
def completeStats (s : GameSession) (timeElapsed : Nat) : GameStats :=
  { matchCount := s.matchList.length,
    wrongMoves := (s.moves : Int) - s.matchList.length,
    timeElapsed := timeElapsed,
    difficulty := s.difficulty,
    consecutiveMatches := calculateConsecutiveMatches s.matchList }

/-- The `POST /api/game/complete` handler (game.js lines 300-415) applied
to the cached session for the submitted game id.  Returns the HTTP outcome
(with the final score on success), the cached session after the request,
and the persistent completion write, if performed.  The session is marked
completed only after `database.completeGame` succeeds; if the subsequent
unguarded cache write fails the handler answers 500 with the cached
session unchanged even though the row is already completed. -/
def completeHandler (sess : Option GameSession) (timeElapsed : Nat)
    (now : Nat) (eff : CompleteEffects) :
    Except CompleteError Int × Option GameSession × Option DbCompletion :=
  match sess with
  | none => (.error .notFound, none, none)
  | some s =>
    if s.isCompleted then (.error .alreadyCompleted, some s, none)
    else
      let sb := calculateScore (completeStats s timeElapsed)
      let dbWrite : DbCompletion :=
        ⟨s.gameId, sb.totalScore, s.moves, timeElapsed, s.matchList.length⟩
      if eff.dbCompleteOk = false then
        (.error .serverError, some s, none)
      else
        let s' : GameSession :=
          { s with
            isCompleted := true, finalScore := some sb.totalScore,
            completedAt := some now }
        if eff.sessionCacheOk = false then
          (.error .serverError, some s, some dbWrite)
        else if eff.delUserStatsOk = false ∨ eff.delLeaderboardOk = false
            ∨ eff.activityOk = false then
          (.error .serverError, some s', some dbWrite)
        else
          (.ok sb.totalScore, some s', some dbWrite)

/-- The cached session seeded by the start handler (game.js lines 55-66). -/
def initialSession (gameId : String) (userId : Nat) (username : String)
    (difficulty : Difficulty) (cards : List Card) (now : Nat) : GameSession :=
  { gameId := gameId, userId := userId, username := username,
    difficulty := difficulty, cards := cards, startTime := now,
    matchList := [], score := 0, moves := 0, isCompleted := false,
    finalScore := none, completedAt := none }

/-- Failure outcome of the start endpoint (the catch-all 500). -/
inductive StartError
  | serverError
deriving Repr, DecidableEq

/-- Success flags for the external calls of the start endpoint, in call
order (game.js lines 39-73).  None of them is individually guarded: they
all sit in the single outer try. -/
structure StartEffects where
  dbUserOk : Bool        -- database.createOrGetUser
  dbCreateGameOk : Bool  -- database.createGame
  cacheSeedOk : Bool     -- redisCache.cacheGameSession
  dailyGamesOk : Bool    -- redisCache.incrementDailyGames
  activityOk : Bool      -- redisCache.trackUserActivity
  lastPlayedOk : Bool    -- database.updateLastPlayed
deriving Repr, DecidableEq

/-- The `POST /api/game/start` handler (game.js lines 34-112): every await
is inside the single outer try, so any failing store or cache call —
including activity tracking and daily-game analytics — produces the
catch-all 500.  On success the seeded cached session is returned. -/
def startHandler (gameId : String) (userId : Nat) (username : String)
    (difficulty : Difficulty) (categories : Option (List String))
    (r1 r2 : Nat → Nat) (now : Nat) (eff : StartEffects) :
    Except StartError GameSession :=
  if eff.dbUserOk = false then .error .serverError
  else
    let cards := generateCardSet difficulty categories r1 r2
    if eff.dbCreateGameOk = false then .error .serverError
    else
      let s := initialSession gameId userId username difficulty cards now
      if eff.cacheSeedOk = false then .error .serverError
      else if eff.dailyGamesOk = false then .error .serverError
      else if eff.activityOk = false then .error .serverError
      else if eff.lastPlayedOk = false then .error .serverError
      else .ok s

/-- C2: for an in-progress cached session, a match submission referencing
a card id absent from the deck fails with `invalidCard`, and one whose
referenced cards resolve in the deck but are already matched fails with
`alreadyMatched`; in both cases the cached session is returned unchanged
(score, moves, card flags and match list included) and no match row is
written. -/
theorem match_rejection_spec (s : GameSession) (h : s.isCompleted = false)
    (card1Id card2Id : String) (matchTime : Option Nat) (now : Nat)
    (eff : MatchEffects) :
    (((∀ c ∈ s.cards, c.id ≠ card1Id) ∨ (∀ c ∈ s.cards, c.id ≠ card2Id)) →
      matchHandler (some s) card1Id card2Id matchTime now eff
        = (.error .invalidCard, some s, none))
    ∧ (∀ card1 card2,
        s.cards.find? (fun c => c.id == card1Id) = some card1 →
        s.cards.find? (fun c => c.id == card2Id) = some card2 →
        (card1.isMatched = true ∨ card2.isMatched = true) →
        matchHandler (some s) card1Id card2Id matchTime now eff
          = (.error .alreadyMatched, some s, none)) := by
  constructor
  · intro hmiss
    rcases hmiss with hm | hm
    · have h1 : s.cards.find? (fun c => c.id == card1Id) = none := by
        rw [List.find?_eq_none]
        intro c hc
        simpa using hm c hc
      cases h2 : s.cards.find? fun c => c.id == card2Id with
      | none => simp [matchHandler, h, h1, h2]
      | some c2 => simp [matchHandler, h, h1, h2]
    · have h2 : s.cards.find? (fun c => c.id == card2Id) = none := by
        rw [List.find?_eq_none]
        intro c hc
        simpa using hm c hc
      cases h1 : s.cards.find? fun c => c.id == card1Id with
      | none => simp [matchHandler, h, h1, h2]
      | some c1 => simp [matchHandler, h, h1, h2]
  · intro card1 card2 h1 h2 hm
    have hb : (card1.isMatched || card2.isMatched) = true := by
      rcases hm with hm | hm <;> simp [hm]
    simp [matchHandler, h, h1, h2, hb]

/-- Witness for C2: a one-card in-progress session rejects a submission
naming an unknown id with `invalidCard`, and a submission naming the
already-matched card with `alreadyMatched`, both leaving the cached
session untouched. -/
theorem match_rejection_spec_witness :
    (matchHandler
        (some (initialSession "g" 1 "u" .easy
          [{ id := "a_1", pairId := "a", emoji := "e", name := "n",
             category := "c", isFlipped := false, isMatched := true,
             position := some 0 }] 0))
        "zzz" "a_1" none 5 ⟨true, true, true, true⟩
      = (.error .invalidCard,
         some (initialSession "g" 1 "u" .easy
          [{ id := "a_1", pairId := "a", emoji := "e", name := "n",
             category := "c", isFlipped := false, isMatched := true,
             position := some 0 }] 0), none))
    ∧ (matchHandler
        (some (initialSession "g" 1 "u" .easy
          [{ id := "a_1", pairId := "a", emoji := "e", name := "n",
             category := "c", isFlipped := false, isMatched := true,
             position := some 0 }] 0))
        "a_1" "a_1" none 5 ⟨true, true, true, true⟩
      = (.error .alreadyMatched,
         some (initialSession "g" 1 "u" .easy
          [{ id := "a_1", pairId := "a", emoji := "e", name := "n",
             category := "c", isFlipped := false, isMatched := true,
             position := some 0 }] 0), none)) := by
  constructor
  · exact (match_rejection_spec _ rfl "zzz" "a_1" none 5 _).1
      (Or.inl (by decide))
  · exact (match_rejection_spec _ rfl "a_1" "a_1" none 5 _).2
      { id := "a_1", pairId := "a", emoji := "e", name := "n",
        category := "c", isFlipped := false, isMatched := true,
        position := some 0 }
      { id := "a_1", pairId := "a", emoji := "e", name := "n",
        category := "c", isFlipped := false, isMatched := true,
        position := some 0 }
      (by decide) (by decide) (Or.inl rfl)

/-- C3: once the completion flag is set, match and complete requests are
both rejected with the already-completed conflict, leaving the cached
session and the persistent row untouched; moreover completing an
in-progress session (all effects succeeding) and then completing the
resulting cached session again yields the conflict, not a second score. -/
theorem completed_conflict_spec (s : GameSession) (h : s.isCompleted = true)
    (card1Id card2Id : String) (matchTime : Option Nat)
    (now te now2 te2 : Nat) (eff : MatchEffects) (eff2 : CompleteEffects) :
    matchHandler (some s) card1Id card2Id matchTime now eff
      = (.error .alreadyCompleted, some s, none)
    ∧ completeHandler (some s) te now2 eff2
      = (.error .alreadyCompleted, some s, none)
    ∧ (∀ s₀ : GameSession, s₀.isCompleted = false → ∀ te₀ n₀,
        (completeHandler
            ((completeHandler (some s₀) te₀ n₀
                ⟨true, true, true, true, true, true⟩).2.1) te2 now2 eff2).1
          = .error .alreadyCompleted) := by
  refine ⟨by simp [matchHandler, h], by simp [completeHandler, h], ?_⟩
  intro s₀ h₀ te₀ n₀
  simp [completeHandler, h₀]

/-- Witness for C3 on a concrete completed session and a concrete
double-completion. -/
theorem completed_conflict_spec_witness :
    (matchHandler
        (some { initialSession "g" 1 "u" .easy [] 0 with
                isCompleted := true })
        "x" "y" none 1 ⟨true, true, true, true⟩).1
      = .error .alreadyCompleted
    ∧ (completeHandler
        ((completeHandler (some (initialSession "g" 1 "u" .easy [] 0)) 7 8
            ⟨true, true, true, true, true, true⟩).2.1) 9 10
        ⟨true, true, true, true, true, true⟩).1
      = .error .alreadyCompleted := by
  constructor
  · rw [(completed_conflict_spec _ rfl "x" "y" none 1 9 10 9
      ⟨true, true, true, true⟩ ⟨true, true, true, true, true, true⟩).1]
  · exact (completed_conflict_spec
      { initialSession "g" 1 "u" .easy [] 0 with isCompleted := true }
      rfl "x" "y" none 1 9 10 9 ⟨true, true, true, true⟩
      ⟨true, true, true, true, true, true⟩).2.2
      (initialSession "g" 1 "u" .easy [] 0) rfl 7 8

/-- C7: the cached session is never marked completed before the
persistent completion write succeeds: when `database.completeGame` fails
the handler answers 500 with the cached session unchanged and no row
write, and any run whose resulting cached session is completed had a
successful persistent write (the session was already completed, or
`dbCompleteOk` held). -/
theorem complete_durability_spec (s : GameSession)
    (h : s.isCompleted = false) (te now : Nat) (eff : CompleteEffects) :
    (eff.dbCompleteOk = false →
      completeHandler (some s) te now eff
        = (.error .serverError, some s, none))
    ∧ (∀ s', (completeHandler (some s) te now eff).2.1 = some s' →
        s'.isCompleted = true → eff.dbCompleteOk = true) := by
  have hfail : eff.dbCompleteOk = false →
      completeHandler (some s) te now eff
        = (.error .serverError, some s, none) := by
    intro hdb
    simp [completeHandler, h, hdb]
  refine ⟨hfail, ?_⟩
  intro s' h1 h2
  cases hdb : eff.dbCompleteOk with
  | true => rfl
  | false =>
    rw [hfail hdb] at h1
    simp only [Option.some.injEq] at h1
    rw [← h1, h] at h2
    exact absurd h2 (by simp)

/-- Witness for C7 on a concrete in-progress session: a failing persistent
write leaves the cached session in progress. -/
theorem complete_durability_spec_witness :
    completeHandler (some (initialSession "g" 1 "u" .easy [] 0)) 7 8
        ⟨false, true, true, true, true, true⟩
      = (.error .serverError, some (initialSession "g" 1 "u" .easy [] 0),
         none) :=
  (complete_durability_spec (initialSession "g" 1 "u" .easy [] 0) rfl 7 8
    ⟨false, true, true, true, true, true⟩).1 rfl

/-- C10: completion does not require all pairs to be matched: any
in-progress cached session completes successfully (all effects
succeeding) with the calculated score, whatever its match list; and a
session completed after zero match submissions has wrong-move count 0,
earns the perfect-game bonus 50, and its final score is exactly 50 (the
speed bonus on the zero base contributes nothing). -/
theorem complete_without_all_pairs (s : GameSession)
    (h : s.isCompleted = false) (te now : Nat) :
    (completeHandler (some s) te now ⟨true, true, true, true, true, true⟩).1
      = .ok ((calculateScore (completeStats s te)).totalScore)
    ∧ (s.moves = 0 → s.matchList = [] →
        (completeStats s te).wrongMoves = 0
        ∧ (calculateScore (completeStats s te)).breakdown.perfectGameBonus
            = 50
        ∧ (completeHandler (some s) te now
            ⟨true, true, true, true, true, true⟩).1 = .ok 50) := by
  have hok : (completeHandler (some s) te now
      ⟨true, true, true, true, true, true⟩).1
      = .ok ((calculateScore (completeStats s te)).totalScore) := by
    simp [completeHandler, h]
  refine ⟨hok, ?_⟩
  intro hm hml
  have hstats : completeStats s te = ⟨0, 0, te, s.difficulty, 0⟩ := by
    simp [completeStats, hm, hml, calculateConsecutiveMatches,
      sortedTimestamps]
  have hscore : (calculateScore (completeStats s te)).totalScore = 50 := by
    rw [hstats]
    simp [calculateScore, scoringPerfectGameBonus]
  refine ⟨by rw [hstats], ?_, ?_⟩
  · rw [hstats]
    simp [calculateScore, scoringPerfectGameBonus]
  · rw [hok, hscore]

/-- Witness for C10: a fresh session with an untouched deck completes at
once with final score exactly 50. -/
theorem complete_without_all_pairs_witness :
    (completeHandler (some (initialSession "g" 1 "u" .easy [] 0)) 7 8
        ⟨true, true, true, true, true, true⟩).1 = .ok 50 :=
  ((complete_without_all_pairs (initialSession "g" 1 "u" .easy [] 0) rfl 7
    8).2 rfl rfl).2.2

/-- C6 counterexample: in the start handler a failing activity-tracking
cache write (all other effects succeeding) produces the catch-all 500
error response, not the normal success response — `trackUserActivity` is
awaited directly inside the outer try (game.js line 70) and rethrows its
Redis error (part_007 lines 378-390). -/
theorem start_activity_failure_not_swallowed :
    startHandler "g1" 1 "alice" .easy none id id 0
      ⟨true, true, true, true, false, true⟩ = .error .serverError := by
  rfl

/-- C6 amended: only the match handler swallows failures of its
non-critical cache writes — its HTTP outcome is unchanged whichever of the
guarded session-cache update, activity tracking and metrics calls fail —
and in the complete handler only the guarded metrics block is swallowed
(the handler is entirely independent of the metrics flag); by contrast, a
daily-game-analytics or activity-tracking failure in the start handler
fails the request with the catch-all 500, and so does a failure of the
session-cache write, either cache delete, or activity tracking in the
complete handler on an otherwise in-progress session. -/
theorem noncritical_failures_swallowed :
    (∀ (s : GameSession) (card1Id card2Id : String)
        (matchTime : Option Nat) (now : Nat) (dbOk cOk aOk mOk : Bool),
      (matchHandler (some s) card1Id card2Id matchTime now
          ⟨dbOk, cOk, aOk, mOk⟩).1
        = (matchHandler (some s) card1Id card2Id matchTime now
            ⟨dbOk, true, true, true⟩).1)
    ∧ (∀ (sess : Option GameSession) (te now : Nat)
        (dbOk cacheOk duOk dlOk aOk mOk : Bool),
        completeHandler sess te now ⟨dbOk, cacheOk, duOk, dlOk, aOk, mOk⟩
          = completeHandler sess te now
              ⟨dbOk, cacheOk, duOk, dlOk, aOk, true⟩)
    ∧ (∀ (gameId : String) (userId : Nat) (username : String)
        (d : Difficulty) (cats : Option (List String)) (r1 r2 : Nat → Nat)
        (now : Nat) (eff : StartEffects),
        (eff.dailyGamesOk = false ∨ eff.activityOk = false) →
        startHandler gameId userId username d cats r1 r2 now eff
          = .error .serverError)
    ∧ (∀ (s : GameSession), s.isCompleted = false → ∀ (te now : Nat)
        (eff : CompleteEffects),
        (eff.sessionCacheOk = false ∨ eff.delUserStatsOk = false
          ∨ eff.delLeaderboardOk = false ∨ eff.activityOk = false) →
        (completeHandler (some s) te now eff).1 = .error .serverError) := by
  refine ⟨?_, ?_, ?_, ?_⟩
  · intro s card1Id card2Id matchTime now dbOk cOk aOk mOk
    cases hc : s.isCompleted
    · cases h1 : s.cards.find? fun c => c.id == card1Id with
      | none => simp [matchHandler, hc, h1]
      | some card1 =>
        cases h2 : s.cards.find? fun c => c.id == card2Id with
        | none => simp [matchHandler, hc, h1, h2]
        | some card2 =>
          simp only [matchHandler, hc, Bool.false_eq_true, if_false, h1, h2]
          split
          · rfl
          · split <;> rfl
    · simp [matchHandler, hc]
  · intro sess te now dbOk cacheOk duOk dlOk aOk mOk
    cases sess with
    | none => rfl
    | some s => rfl
  · intro gameId userId username d cats r1 r2 now eff h
    obtain ⟨u, cg, cs, dg, a, lp⟩ := eff
    simp only at h
    cases u <;> cases cg <;> cases cs <;> cases dg <;> cases a <;>
      simp_all [startHandler]
  · intro s hs te now eff h
    obtain ⟨db, sc, du, dl, a, m⟩ := eff
    simp only at h
    cases db <;> cases sc <;> cases du <;> cases dl <;> cases a <;>
      simp_all [completeHandler]

/-- Witness for C6 (amended): in the match handler, with the session-cache
update, activity tracking and metrics all failing, the HTTP outcome is the
same as with them all succeeding; a failing daily-analytics increment in
the start handler and a failing activity-tracking write in the complete
handler each produce the 500 error response. -/
theorem noncritical_failures_swallowed_witness :
    ((matchHandler (some (initialSession "g" 1 "u" .easy [] 0)) "x" "y"
        none 1 ⟨true, false, false, false⟩).1
      = (matchHandler (some (initialSession "g" 1 "u" .easy [] 0)) "x" "y"
          none 1 ⟨true, true, true, true⟩).1)
    ∧ startHandler "g1" 1 "alice" .easy none id id 0
        ⟨true, true, true, false, true, true⟩ = .error .serverError
    ∧ (completeHandler (some (initialSession "g" 1 "u" .easy [] 0)) 7 8
        ⟨true, true, true, true, false, true⟩).1 = .error .serverError := by
  refine ⟨?_, ?_, ?_⟩
  · exact noncritical_failures_swallowed.1 (initialSession "g" 1 "u" .easy
      [] 0) "x" "y" none 1 true false false false
  · exact noncritical_failures_swallowed.2.2.1 "g1" 1 "alice" .easy none
      id id 0 ⟨true, true, true, false, true, true⟩ (Or.inl rfl)
  · exact noncritical_failures_swallowed.2.2.2
      (initialSession "g" 1 "u" .easy [] 0) rfl 7 8
      ⟨true, true, true, true, false, true⟩
      (Or.inr (Or.inr (Or.inr rfl)))

/-- One request against the cached session, with its inputs and effect
flags: the two session-mutating endpoints. -/
inductive Op
  | matchOp (card1Id card2Id : String) (matchTime : Option Nat) (now : Nat)
      (eff : MatchEffects)
  | completeOp (timeElapsed : Nat) (now : Nat) (eff : CompleteEffects)

/-- The cached session after serving one request. -/
def applyOp (sess : Option GameSession) : Op → Option GameSession
  | .matchOp c1 c2 mt now eff => (matchHandler sess c1 c2 mt now eff).2.1
  | .completeOp te now eff => (completeHandler sess te now eff).2.1

/-- The cached session after a sequence of requests. -/
def runOps (sess : Option GameSession) (ops : List Op) : Option GameSession :=
  ops.foldl applyOp sess

lemma matchHandler_inv (s : GameSession) (c1 c2 : String)
    (mt : Option Nat) (now : Nat) (eff : MatchEffects) (s' : GameSession)
    (hlen : s.matchList.length ≤ s.moves)
    (h : (matchHandler (some s) c1 c2 mt now eff).2.1 = some s') :
    s'.matchList.length ≤ s'.moves := by
  cases hc : s.isCompleted
  case true =>
    simp [matchHandler, hc] at h
    rw [← h]
    exact hlen
  case false =>
    cases h1 : s.cards.find? fun c => c.id == c1 with
    | none =>
      simp [matchHandler, hc, h1] at h
      rw [← h]
      exact hlen
    | some card1 =>
      cases h2 : s.cards.find? fun c => c.id == c2 with
      | none =>
        simp [matchHandler, hc, h1, h2] at h
        rw [← h]
        exact hlen
      | some card2 =>
        simp only [matchHandler, hc, Bool.false_eq_true, if_false, h1,
          h2] at h
        split at h
        · simp only [Option.some.injEq] at h
          rw [← h]
          exact hlen
        · split at h
          · simp only [Option.some.injEq] at h
            rw [← h]
            exact hlen
          · simp only [Option.some.injEq] at h
            cases hck : eff.sessionCacheOk
            · rw [hck] at h
              simp only [Bool.false_eq_true, if_false] at h
              rw [← h]
              exact hlen
            · rw [hck] at h
              simp only [if_true] at h
              rw [← h]
              dsimp only
              split <;>
                (try simp only [List.length_append, List.length_cons,
                  List.length_nil]) <;>
                omega

lemma completeHandler_inv (s : GameSession) (te now : Nat)
    (eff : CompleteEffects) (s' : GameSession)
    (hlen : s.matchList.length ≤ s.moves)
    (h : (completeHandler (some s) te now eff).2.1 = some s') :
    s'.matchList.length ≤ s'.moves := by
  cases hc : s.isCompleted
  case true =>
    simp [completeHandler, hc] at h
    rw [← h]
    exact hlen
  case false =>
    simp only [completeHandler, hc, Bool.false_eq_true, if_false] at h
    split at h
    · simp only [Option.some.injEq] at h
      rw [← h]
      exact hlen
    · split at h
      · simp only [Option.some.injEq] at h
        rw [← h]
        exact hlen
      · split at h
        · simp only [Option.some.injEq] at h
          rw [← h]
          exact hlen
        · simp only [Option.some.injEq] at h
          rw [← h]
          exact hlen

lemma applyOp_inv (sess : Option GameSession) (op : Op)
    (h : ∀ s, sess = some s → s.matchList.length ≤ s.moves) :
    ∀ s', applyOp sess op = some s' → s'.matchList.length ≤ s'.moves := by
  intro s' h'
  cases sess with
  | none =>
    exfalso
    cases op <;> simp [applyOp, matchHandler, completeHandler] at h'
  | some s =>
    have hlen := h s rfl
    cases op with
    | matchOp c1 c2 mt now eff =>
      exact matchHandler_inv s c1 c2 mt now eff s' hlen h'
    | completeOp te now eff =>
      exact completeHandler_inv s te now eff s' hlen h'

lemma applyOp_completed_mono (sess : Option GameSession) (op : Op)
    (s s' : GameSession) (hs : sess = some s) (hc : s.isCompleted = true)
    (h : applyOp sess op = some s') : s'.isCompleted = true := by
  subst hs
  cases op with
  | matchOp c1 c2 mt now eff =>
    simp [applyOp, matchHandler, hc] at h
    rw [← h]
    exact hc
  | completeOp te now eff =>
    simp [applyOp, completeHandler, hc] at h
    rw [← h]
    exact hc

lemma runOps_inv (ops : List Op) : ∀ (sess : Option GameSession),
    (∀ s, sess = some s → s.matchList.length ≤ s.moves) →
    ∀ s', runOps sess ops = some s' → s'.matchList.length ≤ s'.moves := by
  induction ops with
  | nil =>
    intro sess h s' h'
    exact h s' h'
  | cons op ops ih =>
    intro sess h s' h'
    rw [runOps, List.foldl_cons] at h'
    exact ih (applyOp sess op) (fun t ht => applyOp_inv sess op h t ht) s' h'

/-- C9: every cached session reachable from a freshly started session by
any sequence of match and complete requests (under any effect outcomes)
has at least as many moves as recorded matches, and the completion flag is
monotone: no request ever turns it from true back to false. -/
theorem session_invariant_spec (gameId : String) (userId : Nat)
    (username : String) (d : Difficulty) (cards : List Card) (now : Nat)
    (ops : List Op) :
    (∀ s', runOps (some (initialSession gameId userId username d cards now))
        ops = some s' → s'.matchList.length ≤ s'.moves)
    ∧ (∀ (sess : Option GameSession) (op : Op) (s s' : GameSession),
        sess = some s → s.isCompleted = true → applyOp sess op = some s' →
        s'.isCompleted = true) := by
  constructor
  · refine runOps_inv ops _ ?_
    intro s hs
    simp only [Option.some.injEq] at hs
    rw [← hs]
    exact Nat.le_refl 0
  · intro sess op s s' h1 h2 h3
    exact applyOp_completed_mono sess op s s' h1 h2 h3

/-- Witness for C9: a freshly started session satisfies the invariant via
the empty request sequence, and a completed session stays completed across
a further match request. -/
theorem session_invariant_spec_witness :
    ((initialSession "g" 1 "u" .easy [] 0).matchList.length
      ≤ (initialSession "g" 1 "u" .easy [] 0).moves)
    ∧ ({ initialSession "g" 1 "u" .easy [] 0 with
          isCompleted := true } : GameSession).isCompleted = true := by
  constructor
  · exact (session_invariant_spec "g" 1 "u" .easy [] 0 []).1 _ rfl
  · exact (session_invariant_spec "g" 1 "u" .easy [] 0 []).2
      (some ({ initialSession "g" 1 "u" .easy [] 0 with
        isCompleted := true }))
      (Op.matchOp "x" "y" none 7 ⟨true, true, true, true⟩) _ _ rfl rfl
      (by rfl)

/-- The 30-second adjacency window of `calculateConsecutiveMatches`
(game.js line 547) as a relation on (sorted) timestamps. -/
def withinGap (a b : Nat) : Prop := b - a ≤ 30000

instance : DecidableRel withinGap := fun a b =>
  inferInstanceAs (Decidable (b - a ≤ 30000))

/-- Length of the maximal within-gap chain prefix of `l` continuing from
timestamp `prev`. -/
def runLen (prev : Nat) : List Nat → Nat
  | [] => 0
  | t :: rest => if t - prev ≤ 30000 then 1 + runLen t rest else 0

/-- The maximal within-gap chain prefix itself. -/
def takeRun (prev : Nat) : List Nat → List Nat
  | [] => []
  | t :: rest => if t - prev ≤ 30000 then t :: takeRun t rest else []

/-- The length of the longest within-gap run of a timestamp list:
the maximum over all start positions of the maximal chain from there. -/
def longestRun : List Nat → Nat
  | [] => 0
  | t :: rest => max (1 + runLen t rest) (longestRun rest)

lemma streakAux_eq (l : List Nat) : ∀ prev cur best, 1 ≤ cur →
    cur ≤ best →
    streakAux prev cur best l
      = max best (max (cur + runLen prev l) (longestRun l)) := by
  induction l with
  | nil =>
    intro prev cur best h1 h2
    simp only [streakAux, runLen, longestRun]
    omega
  | cons t rest ih =>
    intro prev cur best h1 h2
    by_cases hg : t - prev ≤ 30000
    · rw [streakAux, if_pos hg,
        ih t (cur + 1) (max best (cur + 1)) (by omega) (le_max_right _ _)]
      simp only [runLen, if_pos hg, longestRun]
      omega
    · rw [streakAux, if_neg hg, ih t 1 best (Nat.le_refl 1) (by omega)]
      simp only [runLen, if_neg hg, longestRun]
      omega

lemma calculateConsecutiveMatches_eq_longestRun (ml : List MatchEvent) :
    calculateConsecutiveMatches ml = longestRun (sortedTimestamps ml) := by
  unfold calculateConsecutiveMatches
  cases hs : sortedTimestamps ml with
  | nil => rfl
  | cons t rest =>
    show streakAux t 1 1 rest = longestRun (t :: rest)
    rw [streakAux_eq rest t 1 1 (Nat.le_refl 1) (Nat.le_refl 1)]
    simp only [longestRun]
    omega

lemma runLen_eq_length_takeRun (l : List Nat) :
    ∀ prev, runLen prev l = (takeRun prev l).length := by
  induction l with
  | nil => intro prev; rfl
  | cons t rest ih =>
    intro prev
    by_cases hg : t - prev ≤ 30000 <;>
      simp [runLen, takeRun, hg, ih, Nat.add_comm]

lemma takeRun_prefix (l : List Nat) : ∀ prev, (takeRun prev l) <+: l := by
  induction l with
  | nil => intro prev; simp [takeRun]
  | cons t rest ih =>
    intro prev
    by_cases hg : t - prev ≤ 30000
    · simp only [takeRun, if_pos hg]
      exact List.cons_prefix_cons.mpr ⟨rfl, ih t⟩
    · simp [takeRun, hg]

lemma chain_takeRun (l : List Nat) :
    ∀ prev, List.Chain' withinGap (prev :: takeRun prev l) := by
  induction l with
  | nil => intro prev; simp [takeRun]
  | cons t rest ih =>
    intro prev
    by_cases hg : t - prev ≤ 30000
    · simp only [takeRun, if_pos hg]
      exact List.chain'_cons.mpr ⟨hg, ih t⟩
    · simp [takeRun, hg]

lemma longestRun_exists (l : List Nat) :
    ∃ run, run <:+: l ∧ List.Chain' withinGap run
      ∧ run.length = longestRun l := by
  induction l with
  | nil => exact ⟨[], by simp, List.chain'_nil, rfl⟩
  | cons t rest ih =>
    obtain ⟨run, hinf, hch, hlen⟩ := ih
    by_cases hc : longestRun rest ≤ 1 + runLen t rest
    · refine ⟨t :: takeRun t rest, ?_, chain_takeRun rest t, ?_⟩
      · exact List.infix_cons_iff.mpr
          (Or.inl (List.cons_prefix_cons.mpr ⟨rfl, takeRun_prefix rest t⟩))
      · simp only [longestRun, List.length_cons,
          ← runLen_eq_length_takeRun]
        omega
    · refine ⟨run, List.infix_cons_iff.mpr (Or.inr hinf), hch, ?_⟩
      simp only [longestRun]
      omega

lemma chain_prefix_length_le (run : List Nat) : ∀ prev l, run <+: l →
    List.Chain' withinGap (prev :: run) → run.length ≤ runLen prev l := by
  induction run with
  | nil =>
    intro prev l _ _
    simp
  | cons u run' ih =>
    intro prev l hp hc
    obtain ⟨post, hpost⟩ := hp
    have hgap : u - prev ≤ 30000 := (List.chain'_cons.mp hc).1
    have hrec := ih u (run' ++ post) ⟨post, rfl⟩ (List.chain'_cons.mp hc).2
    rw [← hpost]
    simp only [List.cons_append, runLen, if_pos hgap, List.length_cons]
    simp only [List.append_eq] at hrec ⊢
    omega

lemma longestRun_bound (l : List Nat) : ∀ run, run <:+: l →
    List.Chain' withinGap run → run.length ≤ longestRun l := by
  induction l with
  | nil =>
    intro run h _
    rw [List.infix_nil] at h
    subst h
    simp [longestRun]
  | cons t rest ih =>
    intro run hinf hch
    rcases List.infix_cons_iff.mp hinf with hp | hi
    · cases run with
      | nil => simp
      | cons u run' =>
        obtain ⟨rfl, hp'⟩ := List.cons_prefix_cons.mp hp
        have := chain_prefix_length_le run' u rest hp' hch
        simp only [longestRun, List.length_cons]
        omega
    · have := ih run hi hch
      simp only [longestRun]
      omega

/-- C8: the streak fed to the score calculator at completion is the length
of the longest run of the session's recorded matches ordered by timestamp
in which each timestamp is within 30000 ms of the previous one in the run
(an infix of the sorted timestamp list that is a within-gap chain, of
maximal length); it is 0 exactly when there are no matches, and at least 1
otherwise; and the wrong-move count fed alongside it is
`moves - matches.length`.  The sorted view is a nondecreasing permutation
of the recorded timestamps. -/
theorem consecutiveMatches_spec (ml : List MatchEvent) :
    (ml = [] → calculateConsecutiveMatches ml = 0)
    ∧ (ml ≠ [] → 1 ≤ calculateConsecutiveMatches ml)
    ∧ (sortedTimestamps ml).Perm (ml.map (·.timestamp))
    ∧ List.Pairwise (· ≤ ·) (sortedTimestamps ml)
    ∧ (∃ run, run <:+: sortedTimestamps ml ∧ List.Chain' withinGap run
        ∧ run.length = calculateConsecutiveMatches ml)
    ∧ (∀ run, run <:+: sortedTimestamps ml → List.Chain' withinGap run →
        run.length ≤ calculateConsecutiveMatches ml)
    ∧ (∀ (s : GameSession) (te : Nat),
        (completeStats s te).consecutiveMatches
          = calculateConsecutiveMatches s.matchList
        ∧ (completeStats s te).wrongMoves
          = (s.moves : Int) - s.matchList.length) := by
  refine ⟨?_, ?_, ?_, ?_, ?_, ?_, ?_⟩
  · intro h
    subst h
    simp [calculateConsecutiveMatches, sortedTimestamps]
  · intro h
    rw [calculateConsecutiveMatches_eq_longestRun]
    have hlen : (sortedTimestamps ml).length = ml.length := by
      rw [sortedTimestamps, (List.mergeSort_perm _ _).length_eq,
        List.length_map]
    cases hs : sortedTimestamps ml with
    | nil =>
      rw [hs] at hlen
      exact absurd (List.length_eq_zero.mp hlen.symm) h
    | cons t rest =>
      simp only [longestRun]
      omega
  · exact List.mergeSort_perm _ _
  · have hp := @List.sorted_mergeSort Nat (fun a b => decide (a ≤ b))
      (fun a b c hab hbc => by
        simp only [decide_eq_true_eq] at *
        omega)
      (fun a b => by
        simp only [Bool.or_eq_true, decide_eq_true_eq]
        omega)
      (ml.map (·.timestamp))
    refine List.Pairwise.imp ?_ hp
    intro a b hab
    simpa using hab
  · rw [calculateConsecutiveMatches_eq_longestRun]
    exact longestRun_exists _
  · intro run h1 h2
    rw [calculateConsecutiveMatches_eq_longestRun]
    exact longestRun_bound _ run h1 h2
  · intro s te
    exact ⟨rfl, rfl⟩

/-- Witness for C8 at a two-event match list whose timestamps are 40000 ms
apart: the streak is 1, positive as required, and the one-element run
`[40100]` is a within-gap infix of the sorted timestamps respecting the
bound. -/
theorem consecutiveMatches_spec_witness :
    1 ≤ calculateConsecutiveMatches
        [⟨"a", "b", 0, 10, 0, 100⟩, ⟨"c", "d", 0, 10, 0, 40100⟩]
    ∧ ([40100] : List Nat).length
      ≤ calculateConsecutiveMatches
          [⟨"a", "b", 0, 10, 0, 100⟩, ⟨"c", "d", 0, 10, 0, 40100⟩] := by
  have hsorted : sortedTimestamps
      [⟨"a", "b", 0, 10, 0, 100⟩, ⟨"c", "d", 0, 10, 0, 40100⟩]
      = [100, 40100] := by
    rw [sortedTimestamps]
    exact List.mergeSort_of_sorted (by decide)
  constructor
  · exact (consecutiveMatches_spec
      [⟨"a", "b", 0, 10, 0, 100⟩, ⟨"c", "d", 0, 10, 0, 40100⟩]).2.1
      (by decide)
  · exact (consecutiveMatches_spec
      [⟨"a", "b", 0, 10, 0, 100⟩, ⟨"c", "d", 0, 10, 0, 40100⟩]).2.2.2.2.2.1
      [40100] (by rw [hsorted]; decide) (List.chain'_singleton _)

end MemoryGame
